import Mathlib

/-!
Shallow embedding of the payroll / DRE calculation core of
`folha_v7_12_atualizado.py` (Brazilian payroll: progressive INSS
withholding, IRRF income tax, DRE income-statement aggregation).

Money is modelled with exact rationals `ℚ`.  Python's `round(x, 2)`
(round half to even, at two decimal places) is modelled by `round2`.
-/

namespace Folha

/-- Round a rational to the nearest integer, ties to even
(the rounding used by Python's built-in `round`). -/
def rhe (x : ℚ) : ℤ :=
  if x - ⌊x⌋ < 1/2 then ⌊x⌋
  else if (1:ℚ)/2 < x - ⌊x⌋ then ⌊x⌋ + 1
  else if 2 ∣ ⌊x⌋ then ⌊x⌋ else ⌊x⌋ + 1

/-- Python's `round(x, 2)`: round to the nearest multiple of 1/100,
ties to even. -/
def round2 (x : ℚ) : ℚ := rhe (100 * x) / 100

/-- An INSS bracket `(upper_limit, rate)`; source constant `INSS_BRACKETS`. -/
structure Bracket where
  limit : ℚ
  rate : ℚ
deriving DecidableEq

/-- `INSS_BRACKETS` from the source (upper limit, marginal rate). -/
def INSS_BRACKETS : List Bracket :=
  [⟨1518.00, 0.075⟩, ⟨2793.88, 0.09⟩, ⟨4190.83, 0.12⟩, ⟨8157.41, 0.14⟩]

/-- One entry of the INSS breakdown `details` list: the dict
`{"from": prev, "to": limit, "rate": rate, "taxable": taxable, "amount": amount}`
(`lo` is the key `"from"`, `hi` is the key `"to"`). -/
structure Detail where
  lo : ℚ
  hi : ℚ
  rate : ℚ
  taxable : ℚ
  amount : ℚ
deriving DecidableEq

/-- The loop of `calc_inss`: running lower bound `prev`, remaining brackets;
returns the accumulated total (before the final `round(total, 2)`) and the
breakdown list.  The `else: break` of the source is the `else` branch. -/
def calc_inss_go (salary prev : ℚ) : List Bracket → ℚ × List Detail
  | [] => (0, [])
  | b :: rest =>
    if prev < salary then
      let taxable := min (b.limit - prev) (max 0 (salary - prev))
      let amount := round2 (taxable * b.rate)
      let r := calc_inss_go salary b.limit rest
      (amount + r.1, ⟨prev, b.limit, b.rate, taxable, amount⟩ :: r.2)
    else (0, [])

/-- `calc_inss(salary)`: returns `(round(total, 2), details)`. -/
def calc_inss (salary : ℚ) : ℚ × List Detail :=
  let r := calc_inss_go salary 0 INSS_BRACKETS
  (round2 r.1, r.2)

/-- An IRRF band `(low, high, rate, parcela)`; `high = none` encodes the
source's `float('inf')` upper bound of the last band. -/
structure Band where
  low : ℚ
  high : Option ℚ
  rate : ℚ
  parcela : ℚ
deriving DecidableEq

/-- `IR_TABLE` from the source. -/
def IR_TABLE : List Band :=
  [⟨0.00, some 2428.80, 0.0, 0.0⟩,
   ⟨2428.81, some 2826.65, 0.075, 182.16⟩,
   ⟨2826.66, some 3751.05, 0.15, 394.16⟩,
   ⟨3751.06, some 4664.68, 0.225, 675.49⟩,
   ⟨4664.69, none, 0.275, 908.73⟩]

/-- `DEPENDENT_DEDUCTION` from the source. -/
def DEPENDENT_DEDUCTION : ℚ := 189.59

/-- `base <= high`, where `none` is `float('inf')` (always true). -/
def belowHigh (base : ℚ) : Option ℚ → Prop
  | none => True
  | some h => base ≤ h

instance (base : ℚ) : (o : Option ℚ) → Decidable (belowHigh base o)
  | none => isTrue trivial
  | some h => inferInstanceAs (Decidable (base ≤ h))

/-- The band test `low <= base <= high` of the loop in `calc_irrf`. -/
def band_matches (bd : Band) (base : ℚ) : Prop :=
  bd.low ≤ base ∧ belowHigh base bd.high

instance (bd : Band) (base : ℚ) : Decidable (band_matches bd base) :=
  inferInstanceAs (Decidable (_ ∧ _))

/-- The band-selection loop of `calc_irrf`, including the fallthrough
`return 0.0, 0.0, 0.0, base` after the loop.  Result is
`(ir, rate, parcela, base)`. -/
def calc_irrf_go (base : ℚ) : List Band → ℚ × ℚ × ℚ × ℚ
  | [] => (0, 0, 0, base)
  | bd :: rest =>
    if band_matches bd base then
      (round2 (max (base * bd.rate - bd.parcela) 0), bd.rate, bd.parcela, base)
    else calc_irrf_go base rest

/-- `calc_irrf(salary, inss, other_deductions, dependents)`. -/
def calc_irrf (salary inss other_deductions : ℚ) (dependents : ℕ) :
    ℚ × ℚ × ℚ × ℚ :=
  let base := salary - inss - other_deductions - dependents * DEPENDENT_DEDUCTION
  calc_irrf_go (round2 (max base 0)) IR_TABLE

/-- A row of the `sales` table as read by the DRE tab: its `kind`
(the string `"Produto"` or `"Serviço"`) and its `total`. -/
structure Sale where
  kind : String
  total : ℚ
deriving DecidableEq

/-- A row of the `costs` table: its `kind` (`"Direct"` or `"Indirect"`)
and its `amount`. -/
structure Cost where
  kind : String
  amount : ℚ
deriving DecidableEq

/-- `float(df_sales[df_sales['kind']=='Produto']['total'].sum())`. -/
def receita_produtos (sales : List Sale) : ℚ :=
  ((sales.filter fun s => s.kind = "Produto").map Sale.total).sum

/-- `float(df_sales[df_sales['kind']=='Serviço']['total'].sum())`. -/
def receita_servicos (sales : List Sale) : ℚ :=
  ((sales.filter fun s => s.kind = "Serviço").map Sale.total).sum

/-- `receita_bruta = receita_produtos + receita_servicos`. -/
def receita_bruta (sales : List Sale) : ℚ :=
  receita_produtos sales + receita_servicos sales

/-- The DRE line items, in the insertion order of the source's `dre_dict`:
Receita Bruta, (-) CBS, (-) IBS, Receita Líquida, (-) CPV, Lucro Bruto,
(-) Despesas Operacionais (inclui folha), Resultado Operacional,
Lucro Líquido. -/
structure DRESummary where
  receitaBruta : ℚ
  cbs : ℚ
  ibs : ℚ
  receitaLiquida : ℚ
  cpv : ℚ
  lucroBruto : ℚ
  despesasOperacionais : ℚ
  resultadoOperacional : ℚ
  lucroLiquido : ℚ
deriving DecidableEq

/-- The DRE computation of the source (lines 329–358), as a function of
the sales and costs snapshots, the payroll total `folha`
(`SUM(salary_bruto + benefits)` over employees) and the configured
`CBS_RATE` / `IBS_RATE`. -/
def dre_dict (sales : List Sale) (costs : List Cost)
    (folha cbs_rate ibs_rate : ℚ) : DRESummary :=
  let rb := receita_bruta sales
  let cbs := round2 (rb * cbs_rate)
  let ibs := round2 (rb * ibs_rate)
  let deducoes := cbs + ibs
  let cpv := ((costs.filter fun c => c.kind = "Direct").map Cost.amount).sum
  let despesas := ((costs.filter fun c => c.kind = "Indirect").map Cost.amount).sum
  let receita_liquida := rb - deducoes
  let lucro_bruto := receita_liquida - cpv
  let resultado_operacional := lucro_bruto - (despesas + folha)
  let antes_ir := resultado_operacional
  let ir_csll := 0
  let lucro_liquido := antes_ir - ir_csll
  ⟨rb, cbs, ibs, receita_liquida, cpv, lucro_bruto, despesas + folha,
   resultado_operacional, lucro_liquido⟩

/-- The figures of a payslip, as computed in `generate_holerite_pdf`
(lines 137–145): gross pay, INSS total, IRRF total, informative FGTS,
and net pay (`liquido`). -/
structure Holerite where
  total_prov : ℚ
  inss_total : ℚ
  ir_total : ℚ
  fgts : ℚ
  liquido : ℚ
deriving DecidableEq

/-- The payroll arithmetic of `generate_holerite_pdf` for an employee with
the given gross salary, other deductions, dependents and benefits. -/
def generate_holerite (salary other : ℚ) (dependents : ℕ) (benefits : ℚ) :
    Holerite :=
  let total_prov := round2 (salary + benefits)
  let inss := calc_inss salary
  let ir := calc_irrf salary inss.1 other dependents
  let fgts := round2 (salary * 0.08)
  let liquido := round2 (total_prov - (inss.1 + ir.1 + other))
  ⟨total_prov, inss.1, ir.1, fgts, liquido⟩

/-- `x` is a whole number of cents (every monetary amount stored by the
surrounding application is). -/
def IsCent (x : ℚ) : Prop := ∃ k : ℤ, x = k / 100

/-! ### Properties of the rounding function -/

theorem rhe_intCast (n : ℤ) : rhe n = n := by
  simp [rhe, Int.floor_intCast]

theorem floor_le_rhe (x : ℚ) : ⌊x⌋ ≤ rhe x := by
  unfold rhe; split_ifs <;> omega

theorem rhe_le_floor_add_one (x : ℚ) : rhe x ≤ ⌊x⌋ + 1 := by
  unfold rhe; split_ifs <;> omega

theorem rhe_le (x : ℚ) : (rhe x : ℚ) ≤ x + 1/2 := by
  have hfl := Int.floor_le x
  have hlt := Int.lt_floor_add_one x
  unfold rhe
  split_ifs with h1 h2 h3 <;> push_cast <;> linarith

theorem le_rhe (x : ℚ) : x - 1/2 ≤ (rhe x : ℚ) := by
  have hfl := Int.floor_le x
  have hlt := Int.lt_floor_add_one x
  unfold rhe
  split_ifs with h1 h2 h3 <;> push_cast <;> linarith

theorem rhe_mono {x y : ℚ} (h : x ≤ y) : rhe x ≤ rhe y := by
  have hf : ⌊x⌋ ≤ ⌊y⌋ := Int.floor_le_floor h
  rcases eq_or_lt_of_le hf with hef | hlt
  · unfold rhe
    rw [← hef]
    have hxy : x - ⌊x⌋ ≤ y - ⌊x⌋ := by linarith
    split_ifs <;> first | omega | linarith
  · calc rhe x ≤ ⌊x⌋ + 1 := rhe_le_floor_add_one x
    _ ≤ ⌊y⌋ := by omega
    _ ≤ rhe y := floor_le_rhe y

theorem round2_mono {x y : ℚ} (h : x ≤ y) : round2 x ≤ round2 y := by
  unfold round2
  have := rhe_mono (show 100 * x ≤ 100 * y by linarith)
  have : (rhe (100 * x) : ℚ) ≤ (rhe (100 * y) : ℚ) := by exact_mod_cast this
  linarith

theorem round2_cent (x : ℚ) : IsCent (round2 x) := ⟨rhe (100 * x), rfl⟩

theorem round2_of_cent {x : ℚ} (h : IsCent x) : round2 x = x := by
  obtain ⟨k, rfl⟩ := h
  have h100 : (100 : ℚ) * (k / 100) = (k : ℚ) := by ring
  rw [round2, h100, rhe_intCast]

theorem round2_zero : round2 0 = 0 := round2_of_cent ⟨0, by norm_num⟩

theorem round2_nonneg {x : ℚ} (h : 0 ≤ x) : 0 ≤ round2 x := by
  have h0 : round2 0 ≤ round2 x := round2_mono h
  rwa [round2_zero] at h0

theorem IsCent.add {x y : ℚ} (hx : IsCent x) (hy : IsCent y) :
    IsCent (x + y) := by
  obtain ⟨k, rfl⟩ := hx
  obtain ⟨l, rfl⟩ := hy
  exact ⟨k + l, by push_cast; ring⟩

theorem IsCent.zero : IsCent 0 := ⟨0, by norm_num⟩

/-- If `y` exceeds `x` by less than one cent, rounding moves up by at most
one cent. -/
theorem round2_step {x y : ℚ} (h : y < x + 1/100) :
    round2 y ≤ round2 x + 1/100 := by
  unfold round2
  have h1 : (rhe (100 * y) : ℚ) ≤ 100 * y + 1/2 := rhe_le _
  have h2 : 100 * x - 1/2 ≤ (rhe (100 * x) : ℚ) := le_rhe _
  have h3 : (rhe (100 * y) : ℚ) < (rhe (100 * x) : ℚ) + 2 := by linarith
  have h4 : rhe (100 * y) < rhe (100 * x) + 2 := by exact_mod_cast h3
  have : rhe (100 * y) ≤ rhe (100 * x) + 1 := by omega
  have : (rhe (100 * y) : ℚ) ≤ (rhe (100 * x) : ℚ) + 1 := by exact_mod_cast this
  linarith

/-! ### Claim theorems -/

/-- C1 (counterexample): at salary 3000.00 the INSS breakdown amounts are
NOT `[113.85, 114.82, 24.73]` as the claim states: the bracket-2 amount
is `round(1275.88 * 0.09, 2) = round(114.8292, 2) = 114.83`, not 114.82. -/
theorem calc_inss_3000_not_as_claimed :
    ((calc_inss 3000).2.map Detail.amount) ≠ [113.85, 114.82, 24.73] := by
  norm_num [calc_inss, calc_inss_go, INSS_BRACKETS, round2, rhe,
    Int.floor_eq_iff, Int.fract]

/-- C1 (amended): at salary 3000.00, `calc_inss` produces exactly three
breakdown entries with amounts 113.85 (bracket 0–1518 at 7.5%),
114.83 (bracket 1518–2793.88 at 9%: `1275.88 * 0.09 = 114.8292` rounds to
114.83) and 24.73 (bracket 2793.88–4190.83 at 12%, taxable 206.12), and the
total obtained by the per-bracket-rounding algorithm is 253.41. -/
theorem calc_inss_3000_eq :
    calc_inss 3000 =
      (253.41, [⟨0, 1518, 0.075, 1518, 113.85⟩,
                ⟨1518, 2793.88, 0.09, 1275.88, 114.83⟩,
                ⟨2793.88, 4190.83, 0.12, 206.12, 24.73⟩]) := by
  norm_num [calc_inss, calc_inss_go, INSS_BRACKETS, round2, rhe,
    Int.floor_eq_iff, Int.fract, Prod.ext_iff]

/-- C7: a salary exactly at a bracket's `upper_limit` produces, for that
bracket, a taxable slice of exactly `upper_limit - previous_limit`, and the
following bracket contributes nothing (it is omitted from the breakdown):
stated for each of the four INSS brackets. -/
theorem calc_inss_at_bracket_limits :
    calc_inss 1518 = (113.85, [⟨0, 1518, 0.075, 1518, 113.85⟩]) ∧
    calc_inss 2793.88 =
      (228.68, [⟨0, 1518, 0.075, 1518, 113.85⟩,
                ⟨1518, 2793.88, 0.09, 1275.88, 114.83⟩]) ∧
    calc_inss 4190.83 =
      (396.31, [⟨0, 1518, 0.075, 1518, 113.85⟩,
                ⟨1518, 2793.88, 0.09, 1275.88, 114.83⟩,
                ⟨2793.88, 4190.83, 0.12, 1396.95, 167.63⟩]) ∧
    calc_inss 8157.41 =
      (951.63, [⟨0, 1518, 0.075, 1518, 113.85⟩,
                ⟨1518, 2793.88, 0.09, 1275.88, 114.83⟩,
                ⟨2793.88, 4190.83, 0.12, 1396.95, 167.63⟩,
                ⟨4190.83, 8157.41, 0.14, 3966.58, 555.32⟩]) := by
  refine ⟨?_, ?_, ?_, ?_⟩ <;>
    norm_num [calc_inss, calc_inss_go, INSS_BRACKETS, round2, rhe,
      Int.floor_eq_iff, Int.fract, Prod.ext_iff]

/-- C10: for every salary at or above the top bracket limit 8157.41,
`calc_inss` returns the same total and the same breakdown as at 8157.41
itself — every bracket's taxable slice is capped at the bracket width, so
income above the ceiling contributes nothing. -/
theorem calc_inss_ceiling {s : ℚ} (h : 8157.41 ≤ s) :
    calc_inss s = calc_inss 8157.41 := by
  have h0 : (0:ℚ) < s := by norm_num at h ⊢; linarith
  have h1 : (1518.00:ℚ) < s := by norm_num at h ⊢; linarith
  have h2 : (2793.88:ℚ) < s := by norm_num at h ⊢; linarith
  have h3 : (4190.83:ℚ) < s := by norm_num at h ⊢; linarith
  have m1 : min (1518.00 - 0) (max 0 (s - 0)) = (1518.00:ℚ) - 0 := by
    rw [max_eq_right (by linarith : (0:ℚ) ≤ s - 0)]
    rw [min_eq_left (by norm_num at h ⊢; linarith : (1518.00:ℚ) - 0 ≤ s - 0)]
  have m2 : min (2793.88 - 1518.00) (max 0 (s - 1518.00)) = (2793.88:ℚ) - 1518.00 := by
    rw [max_eq_right (by norm_num at h1 ⊢; linarith : (0:ℚ) ≤ s - 1518.00)]
    rw [min_eq_left (by norm_num at h ⊢; linarith : (2793.88:ℚ) - 1518.00 ≤ s - 1518.00)]
  have m3 : min (4190.83 - 2793.88) (max 0 (s - 2793.88)) = (4190.83:ℚ) - 2793.88 := by
    rw [max_eq_right (by norm_num at h2 ⊢; linarith : (0:ℚ) ≤ s - 2793.88)]
    rw [min_eq_left (by norm_num at h ⊢; linarith : (4190.83:ℚ) - 2793.88 ≤ s - 2793.88)]
  have m4 : min (8157.41 - 4190.83) (max 0 (s - 4190.83)) = (8157.41:ℚ) - 4190.83 := by
    rw [max_eq_right (by norm_num at h3 ⊢; linarith : (0:ℚ) ≤ s - 4190.83)]
    rw [min_eq_left (by norm_num at h ⊢; linarith : (8157.41:ℚ) - 4190.83 ≤ s - 4190.83)]
  simp only [calc_inss, calc_inss_go, INSS_BRACKETS]
  rw [if_pos h0, if_pos h1, if_pos h2, if_pos h3, m1, m2, m3, m4]
  norm_num [round2, rhe, Int.floor_eq_iff, Int.fract, Prod.ext_iff]

/-- C6 (counterexample): with empty sales and costs and payroll total 100,
the DRE line "(-) Despesas Operacionais (inclui folha)" equals 100, not
0.00 — so not every line item other than the net result is zero. -/
theorem dre_empty_not_all_zero :
    (dre_dict [] [] 100 0.12 0.08).despesasOperacionais = 100 ∧
    (100 : ℚ) ≠ 0 := by
  constructor
  · norm_num [dre_dict, receita_bruta, receita_produtos, receita_servicos,
      List.filter, round2, rhe, Int.floor_eq_iff, Int.fract]
  · norm_num

/-- C6 (amended): with empty sales and costs collections, the revenue,
consumption-tax, cost and gross-profit lines of the DRE are all 0.00, the
operating-expense line equals the payroll total, and the operating result
and net result both equal minus the payroll total (net result = operating
result, no income tax on profit being applied). -/
theorem dre_empty_eq (folha cbs_rate ibs_rate : ℚ) :
    dre_dict [] [] folha cbs_rate ibs_rate =
      ⟨0, 0, 0, 0, 0, 0, folha, -folha, -folha⟩ := by
  have hz : ∀ r : ℚ, round2 (0 * r) = 0 := by
    intro r; rw [zero_mul, round2_zero]
  simp [dre_dict, receita_bruta, receita_produtos, receita_servicos,
    List.filter, hz, round2_zero]

theorem IsCent.neg {x : ℚ} (hx : IsCent x) : IsCent (-x) := by
  obtain ⟨k, rfl⟩ := hx
  exact ⟨-k, by push_cast; ring⟩

theorem IsCent.sub {x y : ℚ} (hx : IsCent x) (hy : IsCent y) :
    IsCent (x - y) := by
  rw [sub_eq_add_neg]; exact hx.add hy.neg

theorem calc_irrf_go_fst_cent (base : ℚ) (l : List Band) :
    IsCent (calc_irrf_go base l).1 := by
  induction l with
  | nil => exact IsCent.zero
  | cons bd rest ih =>
    by_cases hm : band_matches bd base
    · simp only [calc_irrf_go, if_pos hm]
      exact round2_cent _
    · simpa only [calc_irrf_go, if_neg hm] using ih

theorem calc_irrf_fst_cent (s i o : ℚ) (d : ℕ) : IsCent (calc_irrf s i o d).1 :=
  calc_irrf_go_fst_cent _ _

theorem calc_inss_fst_cent (s : ℚ) : IsCent (calc_inss s).1 := round2_cent _

/-- C10 (witness): salary 9000.00 is above the ceiling and yields the very
same INSS result as 8157.41. -/
theorem calc_inss_ceiling_witness :
    (8157.41 : ℚ) ≤ 9000 ∧ calc_inss 9000 = calc_inss 8157.41 :=
  ⟨by norm_num, calc_inss_ceiling (by norm_num)⟩

/-- C8: the gross-revenue line is the sum of product-sale totals plus the
sum of service-sale totals, and it is invariant under any permutation of
the sales records. -/
theorem receita_bruta_additive (l₁ l₂ : List Sale) (hp : l₁.Perm l₂) :
    receita_bruta l₁ = receita_produtos l₁ + receita_servicos l₁ ∧
    receita_bruta l₁ = receita_bruta l₂ := by
  refine ⟨rfl, ?_⟩
  have hsum : ∀ p : Sale → Bool,
      ((l₁.filter p).map Sale.total).sum = ((l₂.filter p).map Sale.total).sum :=
    fun p => ((hp.filter p).map Sale.total).sum_eq
  unfold receita_bruta receita_produtos receita_servicos
  rw [hsum, hsum]

/-- C8 (witness): a concrete two-record collection and its reversal. -/
theorem receita_bruta_additive_witness :
    ([⟨"Produto", 10⟩, ⟨"Serviço", 5⟩] : List Sale).Perm
        [⟨"Serviço", 5⟩, ⟨"Produto", 10⟩] ∧
      (receita_bruta [⟨"Produto", 10⟩, ⟨"Serviço", 5⟩] =
          receita_produtos [⟨"Produto", 10⟩, ⟨"Serviço", 5⟩] +
            receita_servicos [⟨"Produto", 10⟩, ⟨"Serviço", 5⟩] ∧
        receita_bruta [⟨"Produto", 10⟩, ⟨"Serviço", 5⟩] =
          receita_bruta [⟨"Serviço", 5⟩, ⟨"Produto", 10⟩]) :=
  ⟨List.Perm.swap (⟨"Serviço", 5⟩ : Sale) ⟨"Produto", 10⟩ [],
   receita_bruta_additive _ _
     (List.Perm.swap (⟨"Serviço", 5⟩ : Sale) ⟨"Produto", 10⟩ [])⟩

/-- C9: benefits enter gross pay and net pay but neither tax computation:
for whole-cent inputs the net pay equals
`round(salary + benefits - (INSS + IRRF + other), 2)`, the INSS and IRRF
totals are unchanged when benefits vary, and changing benefits changes net
pay by exactly the benefit difference. -/
theorem benefits_excluded_from_taxes (salary other benefits b₂ : ℚ) (dep : ℕ)
    (hs : IsCent salary) (ho : IsCent other) (hb : IsCent benefits)
    (hb₂ : IsCent b₂) :
    (generate_holerite salary other dep benefits).liquido =
      round2 (salary + benefits -
        ((calc_inss salary).1 + (calc_irrf salary (calc_inss salary).1 other dep).1 + other)) ∧
    (generate_holerite salary other dep benefits).inss_total =
      (generate_holerite salary other dep b₂).inss_total ∧
    (generate_holerite salary other dep benefits).ir_total =
      (generate_holerite salary other dep b₂).ir_total ∧
    (generate_holerite salary other dep b₂).liquido -
        (generate_holerite salary other dep benefits).liquido = b₂ - benefits := by
  have hded : IsCent ((calc_inss salary).1 +
      (calc_irrf salary (calc_inss salary).1 other dep).1 + other) :=
    ((calc_inss_fst_cent salary).add (calc_irrf_fst_cent _ _ _ _)).add ho
  have key : ∀ b : ℚ, IsCent b → (generate_holerite salary other dep b).liquido =
      salary + b - ((calc_inss salary).1 +
        (calc_irrf salary (calc_inss salary).1 other dep).1 + other) := by
    intro b hbc
    show round2 (round2 (salary + b) - _) = _
    rw [round2_of_cent (hs.add hbc), round2_of_cent ((hs.add hbc).sub hded)]
  refine ⟨?_, rfl, rfl, ?_⟩
  · rw [key benefits hb, round2_of_cent ((hs.add hb).sub hded)]
  · rw [key b₂ hb₂, key benefits hb]; ring

/-- C9 (witness): concrete whole-cent inputs (salary 3000.00, other
deductions 50.00, one dependent, benefits 500.00 versus 600.00). -/
theorem benefits_excluded_from_taxes_witness :
    IsCent (3000:ℚ) ∧
      ((generate_holerite 3000 50 1 500).liquido =
        round2 (3000 + 500 -
          ((calc_inss 3000).1 + (calc_irrf 3000 (calc_inss 3000).1 50 1).1 + 50)) ∧
      (generate_holerite 3000 50 1 500).inss_total =
        (generate_holerite 3000 50 1 600).inss_total ∧
      (generate_holerite 3000 50 1 500).ir_total =
        (generate_holerite 3000 50 1 600).ir_total ∧
      (generate_holerite 3000 50 1 600).liquido -
          (generate_holerite 3000 50 1 500).liquido = 600 - 500) :=
  ⟨⟨300000, by norm_num⟩,
    benefits_excluded_from_taxes 3000 50 500 600 1
      ⟨300000, by norm_num⟩ ⟨5000, by norm_num⟩
      ⟨50000, by norm_num⟩ ⟨60000, by norm_num⟩⟩

theorem calc_inss_go_fst_eq_sum (s p : ℚ) (l : List Bracket) :
    (calc_inss_go s p l).1 = ((calc_inss_go s p l).2.map Detail.amount).sum := by
  induction l generalizing p with
  | nil => simp [calc_inss_go]
  | cons b rest ih =>
    by_cases hc : p < s
    · simp only [calc_inss_go, if_pos hc, List.map_cons, List.sum_cons]
      rw [ih]
    · simp [calc_inss_go, if_neg hc]

theorem calc_inss_go_fst_cent (s p : ℚ) (l : List Bracket) :
    IsCent (calc_inss_go s p l).1 := by
  induction l generalizing p with
  | nil => exact IsCent.zero
  | cons b rest ih =>
    by_cases hc : p < s
    · simp only [calc_inss_go, if_pos hc]
      exact (round2_cent _).add (ih _)
    · simp only [calc_inss_go, if_neg hc]
      exact IsCent.zero

theorem calc_inss_go_taxable_nonneg (s p : ℚ) (l : List Bracket)
    (hch : List.Chain (· ≤ ·) p (l.map Bracket.limit)) :
    ∀ d ∈ (calc_inss_go s p l).2, 0 ≤ d.taxable := by
  induction l generalizing p with
  | nil => simp [calc_inss_go]
  | cons b rest ih =>
    rw [List.map_cons, List.chain_cons] at hch
    by_cases hc : p < s
    · simp only [calc_inss_go, if_pos hc, List.mem_cons]
      rintro d (rfl | hd)
      · exact le_min (by linarith [hch.1]) (le_max_left 0 _)
      · exact ih _ hch.2 d hd
    · simp [calc_inss_go, if_neg hc]

theorem inss_brackets_chain :
    List.Chain (· ≤ ·) 0 (INSS_BRACKETS.map Bracket.limit) := by
  simp only [INSS_BRACKETS, List.map_cons, List.map_nil, List.chain_cons,
    List.Chain.nil, and_true]
  norm_num

/-- C4: for every salary ≥ 0 the INSS total equals the sum of the `amount`
fields of the breakdown, and no breakdown entry's `taxable` is negative. -/
theorem calc_inss_total_eq_sum_breakdown (salary : ℚ) (h : 0 ≤ salary) :
    (calc_inss salary).1 = ((calc_inss salary).2.map Detail.amount).sum ∧
    ∀ d ∈ (calc_inss salary).2, 0 ≤ d.taxable := by
  constructor
  · show round2 (calc_inss_go salary 0 INSS_BRACKETS).1 = _
    rw [round2_of_cent (calc_inss_go_fst_cent salary 0 INSS_BRACKETS)]
    exact calc_inss_go_fst_eq_sum salary 0 INSS_BRACKETS
  · exact calc_inss_go_taxable_nonneg salary 0 INSS_BRACKETS inss_brackets_chain

/-- C4 (witness): the property at salary 3000.00. -/
theorem calc_inss_total_eq_sum_breakdown_witness :
    (0:ℚ) ≤ 3000 ∧
      ((calc_inss 3000).1 = ((calc_inss 3000).2.map Detail.amount).sum ∧
        ∀ d ∈ (calc_inss 3000).2, 0 ≤ d.taxable) :=
  ⟨by norm_num, calc_inss_total_eq_sum_breakdown 3000 (by norm_num)⟩

theorem calc_irrf_go_of_no_match (base : ℚ) (l : List Band)
    (h : ∀ bd ∈ l, ¬ band_matches bd base) :
    calc_irrf_go base l = (0, 0, 0, base) := by
  induction l with
  | nil => rfl
  | cons bd rest ih =>
    rw [calc_irrf_go, if_neg (h bd (List.mem_cons_self bd rest))]
    exact ih fun b hb => h b (List.mem_cons_of_mem bd hb)

/-- C3 (counterexample): at the non-negative base 2428.805 — which lies in
the gap between the first two IR bands — no band matches, and the
band-selection loop silently returns the zero/default result
`(0.0, 0.0, 0.0, base)`; no error of any kind is raised. -/
theorem calc_irrf_no_match_returns_default :
    (0:ℚ) ≤ 2428.805 ∧
      (∀ bd ∈ IR_TABLE, ¬ band_matches bd (2428.805 : ℚ)) ∧
      calc_irrf_go 2428.805 IR_TABLE = (0, 0, 0, 2428.805) := by
  refine ⟨by norm_num, ?_, ?_⟩
  · intro bd hbd
    simp only [IR_TABLE, List.mem_cons, List.not_mem_nil, or_false] at hbd
    rcases hbd with rfl | rfl | rfl | rfl | rfl <;>
      norm_num [band_matches, belowHigh]
  · norm_num [calc_irrf_go, IR_TABLE, band_matches, belowHigh]

/-- C3 (amended): when no income-tax band matches the base, `calc_irrf`'s
band loop falls through and returns the zero/default tuple
`(0.0, 0.0, 0.0, base)` — it does not raise an internal-consistency
error. -/
theorem calc_irrf_fallthrough (base : ℚ)
    (h : ∀ bd ∈ IR_TABLE, ¬ band_matches bd base) :
    calc_irrf_go base IR_TABLE = (0, 0, 0, base) :=
  calc_irrf_go_of_no_match base IR_TABLE h

/-- C3 (witness): the fallthrough exercised at base 2428.805. -/
theorem calc_irrf_fallthrough_witness :
    calc_irrf_go 2428.805 IR_TABLE = (0, 0, 0, 2428.805) :=
  calc_irrf_fallthrough 2428.805 (by
    intro bd hbd
    simp only [IR_TABLE, List.mem_cons, List.not_mem_nil, or_false] at hbd
    rcases hbd with rfl | rfl | rfl | rfl | rfl <;>
      norm_num [band_matches, belowHigh])

theorem ir_table_countP_eval (c : ℚ) :
    (IR_TABLE.countP fun bd => decide (band_matches bd c)) =
      ((((if 0 ≤ c ∧ c ≤ 2428.80 then 1 else 0) +
        (if 2428.81 ≤ c ∧ c ≤ 2826.65 then 1 else 0)) +
        (if 2826.66 ≤ c ∧ c ≤ 3751.05 then 1 else 0)) +
        (if 3751.06 ≤ c ∧ c ≤ 4664.68 then 1 else 0)) +
        (if 4664.69 ≤ c then 1 else 0) := by
  simp only [IR_TABLE, List.countP_cons, List.countP_nil,
    decide_eq_true_eq, band_matches, belowHigh, and_true]
  ring_nf

theorem ir_table_countP_nat (m : ℕ) :
    (IR_TABLE.countP fun bd => decide (band_matches bd ((m:ℚ)/100))) =
      ((((if m ≤ 242880 then 1 else 0) +
        (if 242881 ≤ m ∧ m ≤ 282665 then 1 else 0)) +
        (if 282666 ≤ m ∧ m ≤ 375105 then 1 else 0)) +
        (if 375106 ≤ m ∧ m ≤ 466468 then 1 else 0)) +
        (if 466469 ≤ m then 1 else 0) := by
  have h100 : (0:ℚ) < 100 := by norm_num
  have h0c : (0:ℚ) ≤ (m:ℚ)/100 := by positivity
  have e1 : ((0:ℚ) ≤ (m:ℚ)/100 ∧ (m:ℚ)/100 ≤ 2428.80) ↔ m ≤ 242880 := by
    rw [and_iff_right h0c, div_le_iff₀ h100,
      show (2428.80:ℚ) * 100 = ((242880:ℕ):ℚ) by norm_num]
    exact Nat.cast_le
  have e2 : ((2428.81:ℚ) ≤ (m:ℚ)/100 ∧ (m:ℚ)/100 ≤ 2826.65) ↔
      (242881 ≤ m ∧ m ≤ 282665) := by
    rw [le_div_iff₀ h100, div_le_iff₀ h100,
      show (2428.81:ℚ) * 100 = ((242881:ℕ):ℚ) by norm_num,
      show (2826.65:ℚ) * 100 = ((282665:ℕ):ℚ) by norm_num]
    exact and_congr Nat.cast_le Nat.cast_le
  have e3 : ((2826.66:ℚ) ≤ (m:ℚ)/100 ∧ (m:ℚ)/100 ≤ 3751.05) ↔
      (282666 ≤ m ∧ m ≤ 375105) := by
    rw [le_div_iff₀ h100, div_le_iff₀ h100,
      show (2826.66:ℚ) * 100 = ((282666:ℕ):ℚ) by norm_num,
      show (3751.05:ℚ) * 100 = ((375105:ℕ):ℚ) by norm_num]
    exact and_congr Nat.cast_le Nat.cast_le
  have e4 : ((3751.06:ℚ) ≤ (m:ℚ)/100 ∧ (m:ℚ)/100 ≤ 4664.68) ↔
      (375106 ≤ m ∧ m ≤ 466468) := by
    rw [le_div_iff₀ h100, div_le_iff₀ h100,
      show (3751.06:ℚ) * 100 = ((375106:ℕ):ℚ) by norm_num,
      show (4664.68:ℚ) * 100 = ((466468:ℕ):ℚ) by norm_num]
    exact and_congr Nat.cast_le Nat.cast_le
  have e5 : ((4664.69:ℚ) ≤ (m:ℚ)/100) ↔ 466469 ≤ m := by
    rw [le_div_iff₀ h100,
      show (4664.69:ℚ) * 100 = ((466469:ℕ):ℚ) by norm_num]
    exact Nat.cast_le
  rw [ir_table_countP_eval, if_congr e1 rfl rfl, if_congr e2 rfl rfl,
    if_congr e3 rfl rfl, if_congr e4 rfl rfl, if_congr e5 rfl rfl]

/-- C2 (counterexample): the base 2428.805 is non-negative yet matches NO
band of `IR_TABLE` — the bands do not cover all of `[0, ∞)`: there is a
gap between 2428.80 and 2428.81. -/
theorem ir_table_gap :
    (0:ℚ) ≤ 2428.805 ∧
      (IR_TABLE.countP fun bd => decide (band_matches bd (2428.805 : ℚ))) = 0 := by
  refine ⟨by norm_num, ?_⟩
  rw [ir_table_countP_eval]
  norm_num

/-- C2 (amended): every non-negative base that is a whole number of cents
(as every base computed by `calc_irrf` is, being the output of
`round(·, 2)`) matches exactly one band of `IR_TABLE`; the gaps between
consecutive bands contain no whole-cent values. -/
theorem ir_table_unique_band (base : ℚ) (h0 : 0 ≤ base) (hc : IsCent base) :
    (IR_TABLE.countP fun bd => decide (band_matches bd base)) = 1 := by
  obtain ⟨k, rfl⟩ := hc
  have hk : 0 ≤ k := by
    by_contra hneg
    push_neg at hneg
    have : ((k:ℚ)/100) < 0 := by
      apply div_neg_of_neg_of_pos _ (by norm_num)
      exact_mod_cast hneg
    linarith
  obtain ⟨m, rfl⟩ := Int.eq_ofNat_of_zero_le hk
  have hcast : ((m:ℤ):ℚ)/100 = (m:ℚ)/100 := by push_cast; ring
  rw [hcast, ir_table_countP_nat]
  split_ifs <;> omega

/-- C2 (witness): the base 3000.00 matches exactly one band. -/
theorem ir_table_unique_band_witness :
    (IR_TABLE.countP fun bd => decide (band_matches bd (3000 : ℚ))) = 1 :=
  ir_table_unique_band 3000 (by norm_num) ⟨300000, by norm_num⟩

/-! ### Monotonicity of the INSS total -/

theorem slice_zero {w s p : ℚ} (h : s ≤ p) (hw : 0 ≤ w) :
    min w (max 0 (s - p)) = 0 := by
  rw [max_eq_left (by linarith), min_eq_right hw]

theorem slice_mid {w s p : ℚ} (h1 : p ≤ s) (h2 : s ≤ p + w) :
    min w (max 0 (s - p)) = s - p := by
  rw [max_eq_right (by linarith), min_eq_right (by linarith)]

theorem slice_full {w s p : ℚ} (hw : 0 ≤ w) (h2 : p + w ≤ s) :
    min w (max 0 (s - p)) = w := by
  rw [max_eq_right (by linarith), min_eq_left (by linarith)]

/-- The INSS running total, written as the sum over all four brackets of
the rounded contribution of each slice (brackets the loop never reaches
contribute a zero slice). -/
theorem calc_inss_go_total_eq (s : ℚ) :
    (calc_inss_go s 0 INSS_BRACKETS).1 =
      round2 (min (1518.00 - 0) (max 0 (s - 0)) * 0.075) +
      (round2 (min (2793.88 - 1518.00) (max 0 (s - 1518.00)) * 0.09) +
      (round2 (min (4190.83 - 2793.88) (max 0 (s - 2793.88)) * 0.12) +
      round2 (min (8157.41 - 4190.83) (max 0 (s - 4190.83)) * 0.14))) := by
  simp only [calc_inss_go, INSS_BRACKETS]
  split_ifs with h1 h2 h3 h4
  · ring
  · rw [slice_zero (not_lt.mp h4) (by norm_num)]
    simp only [zero_mul, round2_zero]
    try ring
  · have hs3 : s ≤ 2793.88 := not_lt.mp h3
    rw [slice_zero hs3 (by norm_num), slice_zero (by linarith : s ≤ (4190.83:ℚ)) (by norm_num)]
    simp only [zero_mul, round2_zero]
    try ring
  · have hs2 : s ≤ 1518.00 := not_lt.mp h2
    rw [slice_zero hs2 (by norm_num), slice_zero (by linarith : s ≤ (2793.88:ℚ)) (by norm_num),
      slice_zero (by linarith : s ≤ (4190.83:ℚ)) (by norm_num)]
    simp only [zero_mul, round2_zero]
    try ring
  · have hs1 : s ≤ 0 := not_lt.mp h1
    rw [slice_zero hs1 (by norm_num), slice_zero (by linarith : s ≤ (1518.00:ℚ)) (by norm_num),
      slice_zero (by linarith : s ≤ (2793.88:ℚ)) (by norm_num),
      slice_zero (by linarith : s ≤ (4190.83:ℚ)) (by norm_num)]
    simp only [zero_mul, round2_zero]
    try ring

theorem calc_inss_fst_eq (s : ℚ) :
    (calc_inss s).1 = (calc_inss_go s 0 INSS_BRACKETS).1 :=
  round2_of_cent (calc_inss_go_fst_cent s 0 INSS_BRACKETS)

theorem calc_inss_mono {s t : ℚ} (h : s ≤ t) :
    (calc_inss s).1 ≤ (calc_inss t).1 := by
  rw [calc_inss_fst_eq, calc_inss_fst_eq, calc_inss_go_total_eq,
    calc_inss_go_total_eq]
  have hm : ∀ w p r : ℚ, 0 ≤ r →
      round2 (min w (max 0 (s - p)) * r) ≤
        round2 (min w (max 0 (t - p)) * r) := by
    intro w p r hr
    apply round2_mono
    apply mul_le_mul_of_nonneg_right _ hr
    exact min_le_min le_rfl (max_le_max le_rfl (by linarith))
  exact add_le_add (hm _ _ _ (by norm_num))
    (add_le_add (hm _ _ _ (by norm_num))
      (add_le_add (hm _ _ _ (by norm_num)) (hm _ _ _ (by norm_num))))

/-- Raising a whole-cent salary by one cent raises the INSS total by at
most one cent (at most one bracket's contribution moves, and its pre-round
increment is under half a cent). -/
theorem calc_inss_cent_step (k : ℕ) :
    (calc_inss (((k:ℚ)+1)/100)).1 ≤ (calc_inss ((k:ℚ)/100)).1 + 1/100 := by
  have hk0 : (0:ℚ) ≤ (k:ℚ) := Nat.cast_nonneg k
  rw [calc_inss_fst_eq, calc_inss_fst_eq, calc_inss_go_total_eq,
    calc_inss_go_total_eq]
  have h100 : (0:ℚ) < 100 := by norm_num
  have h0s : (0:ℚ) ≤ (k:ℚ)/100 := by positivity
  have h0s' : (0:ℚ) ≤ ((k:ℚ)+1)/100 := by positivity
  have hss : (k:ℚ)/100 ≤ ((k:ℚ)+1)/100 := by linarith
  rcases lt_or_le k 151800 with r0 | hr1
  · -- both salaries within bracket 1
    have hk1 : (k:ℚ) + 1 ≤ 151800 := by exact_mod_cast r0
    have hs' : ((k:ℚ)+1)/100 ≤ 1518.00 := by
      rw [div_le_iff₀ h100]; norm_num; linarith
    have hs : (k:ℚ)/100 ≤ 1518.00 := le_trans hss hs'
    rw [slice_mid h0s (show (k:ℚ)/100 ≤ 0 + (1518.00 - 0) by linarith),
      slice_mid h0s' (show ((k:ℚ)+1)/100 ≤ 0 + (1518.00 - 0) by linarith),
      slice_zero (show (k:ℚ)/100 ≤ (1518.00:ℚ) from hs) (by norm_num),
      slice_zero (show ((k:ℚ)+1)/100 ≤ (1518.00:ℚ) from hs') (by norm_num),
      slice_zero (show (k:ℚ)/100 ≤ (2793.88:ℚ) by linarith) (by norm_num),
      slice_zero (show ((k:ℚ)+1)/100 ≤ (2793.88:ℚ) by linarith) (by norm_num),
      slice_zero (show (k:ℚ)/100 ≤ (4190.83:ℚ) by linarith) (by norm_num),
      slice_zero (show ((k:ℚ)+1)/100 ≤ (4190.83:ℚ) by linarith) (by norm_num)]
    simp only [zero_mul, round2_zero]
    have hst := round2_step
      (show (((k:ℚ)+1)/100 - 0) * 0.075 < ((k:ℚ)/100 - 0) * 0.075 + 1/100 by
        nlinarith)
    linarith
  rcases lt_or_le k 279388 with r1 | hr2
  · -- both salaries within bracket 2
    have hk1 : (151800:ℚ) ≤ (k:ℚ) := by exact_mod_cast hr1
    have hk2 : (k:ℚ) + 1 ≤ 279388 := by exact_mod_cast r1
    have hlo : (1518.00:ℚ) ≤ (k:ℚ)/100 := by
      rw [le_div_iff₀ h100]; norm_num; linarith
    have hhi : ((k:ℚ)+1)/100 ≤ 2793.88 := by
      rw [div_le_iff₀ h100]; norm_num; linarith
    rw [slice_full (show (0:ℚ) ≤ 1518.00 - 0 by norm_num)
        (show (0:ℚ) + (1518.00 - 0) ≤ (k:ℚ)/100 by linarith),
      slice_full (show (0:ℚ) ≤ 1518.00 - 0 by norm_num)
        (show (0:ℚ) + (1518.00 - 0) ≤ ((k:ℚ)+1)/100 by linarith),
      slice_mid (show (1518.00:ℚ) ≤ (k:ℚ)/100 from hlo)
        (show (k:ℚ)/100 ≤ 1518.00 + (2793.88 - 1518.00) by linarith),
      slice_mid (show (1518.00:ℚ) ≤ ((k:ℚ)+1)/100 by linarith)
        (show ((k:ℚ)+1)/100 ≤ 1518.00 + (2793.88 - 1518.00) by linarith),
      slice_zero (show (k:ℚ)/100 ≤ (2793.88:ℚ) by linarith) (by norm_num),
      slice_zero (show ((k:ℚ)+1)/100 ≤ (2793.88:ℚ) from hhi) (by norm_num),
      slice_zero (show (k:ℚ)/100 ≤ (4190.83:ℚ) by linarith) (by norm_num),
      slice_zero (show ((k:ℚ)+1)/100 ≤ (4190.83:ℚ) by linarith) (by norm_num)]
    simp only [zero_mul, round2_zero]
    have hst := round2_step
      (show (((k:ℚ)+1)/100 - 1518.00) * 0.09 <
          ((k:ℚ)/100 - 1518.00) * 0.09 + 1/100 by nlinarith)
    linarith
  rcases lt_or_le k 419083 with r2 | hr3
  · -- both salaries within bracket 3
    have hk1 : (279388:ℚ) ≤ (k:ℚ) := by exact_mod_cast hr2
    have hk2 : (k:ℚ) + 1 ≤ 419083 := by exact_mod_cast r2
    have hlo : (2793.88:ℚ) ≤ (k:ℚ)/100 := by
      rw [le_div_iff₀ h100]; norm_num; linarith
    have hhi : ((k:ℚ)+1)/100 ≤ 4190.83 := by
      rw [div_le_iff₀ h100]; norm_num; linarith
    rw [slice_full (show (0:ℚ) ≤ 1518.00 - 0 by norm_num)
        (show (0:ℚ) + (1518.00 - 0) ≤ (k:ℚ)/100 by linarith),
      slice_full (show (0:ℚ) ≤ 1518.00 - 0 by norm_num)
        (show (0:ℚ) + (1518.00 - 0) ≤ ((k:ℚ)+1)/100 by linarith),
      slice_full (show (0:ℚ) ≤ 2793.88 - 1518.00 by norm_num)
        (show (1518.00:ℚ) + (2793.88 - 1518.00) ≤ (k:ℚ)/100 by linarith),
      slice_full (show (0:ℚ) ≤ 2793.88 - 1518.00 by norm_num)
        (show (1518.00:ℚ) + (2793.88 - 1518.00) ≤ ((k:ℚ)+1)/100 by linarith),
      slice_mid (show (2793.88:ℚ) ≤ (k:ℚ)/100 from hlo)
        (show (k:ℚ)/100 ≤ 2793.88 + (4190.83 - 2793.88) by linarith),
      slice_mid (show (2793.88:ℚ) ≤ ((k:ℚ)+1)/100 by linarith)
        (show ((k:ℚ)+1)/100 ≤ 2793.88 + (4190.83 - 2793.88) by linarith),
      slice_zero (show (k:ℚ)/100 ≤ (4190.83:ℚ) by linarith) (by norm_num),
      slice_zero (show ((k:ℚ)+1)/100 ≤ (4190.83:ℚ) from hhi) (by norm_num)]
    simp only [zero_mul, round2_zero]
    have hst := round2_step
      (show (((k:ℚ)+1)/100 - 2793.88) * 0.12 <
          ((k:ℚ)/100 - 2793.88) * 0.12 + 1/100 by nlinarith)
    linarith
  rcases lt_or_le k 815741 with r3 | hr4
  · -- both salaries within bracket 4
    have hk1 : (419083:ℚ) ≤ (k:ℚ) := by exact_mod_cast hr3
    have hk2 : (k:ℚ) + 1 ≤ 815741 := by exact_mod_cast r3
    have hlo : (4190.83:ℚ) ≤ (k:ℚ)/100 := by
      rw [le_div_iff₀ h100]; norm_num; linarith
    have hhi : ((k:ℚ)+1)/100 ≤ 8157.41 := by
      rw [div_le_iff₀ h100]; norm_num; linarith
    rw [slice_full (show (0:ℚ) ≤ 1518.00 - 0 by norm_num)
        (show (0:ℚ) + (1518.00 - 0) ≤ (k:ℚ)/100 by linarith),
      slice_full (show (0:ℚ) ≤ 1518.00 - 0 by norm_num)
        (show (0:ℚ) + (1518.00 - 0) ≤ ((k:ℚ)+1)/100 by linarith),
      slice_full (show (0:ℚ) ≤ 2793.88 - 1518.00 by norm_num)
        (show (1518.00:ℚ) + (2793.88 - 1518.00) ≤ (k:ℚ)/100 by linarith),
      slice_full (show (0:ℚ) ≤ 2793.88 - 1518.00 by norm_num)
        (show (1518.00:ℚ) + (2793.88 - 1518.00) ≤ ((k:ℚ)+1)/100 by linarith),
      slice_full (show (0:ℚ) ≤ 4190.83 - 2793.88 by norm_num)
        (show (2793.88:ℚ) + (4190.83 - 2793.88) ≤ (k:ℚ)/100 by linarith),
      slice_full (show (0:ℚ) ≤ 4190.83 - 2793.88 by norm_num)
        (show (2793.88:ℚ) + (4190.83 - 2793.88) ≤ ((k:ℚ)+1)/100 by linarith),
      slice_mid (show (4190.83:ℚ) ≤ (k:ℚ)/100 from hlo)
        (show (k:ℚ)/100 ≤ 4190.83 + (8157.41 - 4190.83) by linarith),
      slice_mid (show (4190.83:ℚ) ≤ ((k:ℚ)+1)/100 by linarith)
        (show ((k:ℚ)+1)/100 ≤ 4190.83 + (8157.41 - 4190.83) by linarith)]
    have hst := round2_step
      (show (((k:ℚ)+1)/100 - 4190.83) * 0.14 <
          ((k:ℚ)/100 - 4190.83) * 0.14 + 1/100 by nlinarith)
    linarith
  · -- both salaries at or above the ceiling: total constant
    have hk1 : (815741:ℚ) ≤ (k:ℚ) := by exact_mod_cast hr4
    have hlo : (8157.41:ℚ) ≤ (k:ℚ)/100 := by
      rw [le_div_iff₀ h100]; norm_num; linarith
    rw [slice_full (show (0:ℚ) ≤ 1518.00 - 0 by norm_num)
        (show (0:ℚ) + (1518.00 - 0) ≤ (k:ℚ)/100 by linarith),
      slice_full (show (0:ℚ) ≤ 1518.00 - 0 by norm_num)
        (show (0:ℚ) + (1518.00 - 0) ≤ ((k:ℚ)+1)/100 by linarith),
      slice_full (show (0:ℚ) ≤ 2793.88 - 1518.00 by norm_num)
        (show (1518.00:ℚ) + (2793.88 - 1518.00) ≤ (k:ℚ)/100 by linarith),
      slice_full (show (0:ℚ) ≤ 2793.88 - 1518.00 by norm_num)
        (show (1518.00:ℚ) + (2793.88 - 1518.00) ≤ ((k:ℚ)+1)/100 by linarith),
      slice_full (show (0:ℚ) ≤ 4190.83 - 2793.88 by norm_num)
        (show (2793.88:ℚ) + (4190.83 - 2793.88) ≤ (k:ℚ)/100 by linarith),
      slice_full (show (0:ℚ) ≤ 4190.83 - 2793.88 by norm_num)
        (show (2793.88:ℚ) + (4190.83 - 2793.88) ≤ ((k:ℚ)+1)/100 by linarith),
      slice_full (show (0:ℚ) ≤ 8157.41 - 4190.83 by norm_num)
        (show (4190.83:ℚ) + (8157.41 - 4190.83) ≤ (k:ℚ)/100 by linarith),
      slice_full (show (0:ℚ) ≤ 8157.41 - 4190.83 by norm_num)
        (show (4190.83:ℚ) + (8157.41 - 4190.83) ≤ ((k:ℚ)+1)/100 by linarith)]
    linarith

theorem inss_g_mono_cents {k1 k2 : ℕ} (h : k1 ≤ k2) :
    (k1:ℚ)/100 - (calc_inss ((k1:ℚ)/100)).1 ≤
      (k2:ℚ)/100 - (calc_inss ((k2:ℚ)/100)).1 := by
  induction k2, h using Nat.le_induction with
  | base => exact le_refl _
  | succ n hn ih =>
    have hstep := calc_inss_cent_step n
    have hc : ((n+1:ℕ):ℚ) = (n:ℚ)+1 := by push_cast; ring
    rw [hc]
    linarith

/-! ### Monotonicity of the IRRF amount over whole-cent bases -/

theorem irrf_go_fst_nonneg (b : ℚ) (l : List Band) :
    0 ≤ (calc_irrf_go b l).1 := by
  induction l with
  | nil => exact le_refl _
  | cons bd rest ih =>
    by_cases hm : band_matches bd b
    · simp only [calc_irrf_go, if_pos hm]
      exact round2_nonneg (le_max_right _ 0)
    · simpa only [calc_irrf_go, if_neg hm] using ih

theorem irrf_go_band1 {b : ℚ} (h0 : 0 ≤ b) (h1 : b ≤ 2428.80) :
    (calc_irrf_go b IR_TABLE).1 = 0 := by
  have hm : band_matches ⟨0.00, some 2428.80, 0.0, 0.0⟩ b :=
    ⟨show (0.00:ℚ) ≤ b by linarith, show belowHigh b (some 2428.80) from h1⟩
  simp only [IR_TABLE, calc_irrf_go]
  rw [if_pos hm]
  show round2 (max (b * 0.0 - 0.0) 0) = 0
  rw [show b * 0.0 - 0.0 = (0:ℚ) by norm_num, max_self, round2_zero]

theorem irrf_go_band2 {b : ℚ} (h0 : (2428.81:ℚ) ≤ b) (h1 : b ≤ 2826.65) :
    (calc_irrf_go b IR_TABLE).1 = round2 (max (b * 0.075 - 182.16) 0) := by
  have hn1 : ¬ band_matches ⟨0.00, some 2428.80, 0.0, 0.0⟩ b := by
    rintro ⟨-, hx⟩
    simp only [belowHigh] at hx
    linarith
  have hm : band_matches ⟨2428.81, some 2826.65, 0.075, 182.16⟩ b :=
    ⟨h0, show belowHigh b (some 2826.65) from h1⟩
  simp only [IR_TABLE, calc_irrf_go]
  rw [if_neg hn1, if_pos hm]

theorem irrf_go_band3 {b : ℚ} (h0 : (2826.66:ℚ) ≤ b) (h1 : b ≤ 3751.05) :
    (calc_irrf_go b IR_TABLE).1 = round2 (max (b * 0.15 - 394.16) 0) := by
  have hn1 : ¬ band_matches ⟨0.00, some 2428.80, 0.0, 0.0⟩ b := by
    rintro ⟨-, hx⟩
    simp only [belowHigh] at hx
    linarith
  have hn2 : ¬ band_matches ⟨2428.81, some 2826.65, 0.075, 182.16⟩ b := by
    rintro ⟨-, hx⟩
    simp only [belowHigh] at hx
    linarith
  have hm : band_matches ⟨2826.66, some 3751.05, 0.15, 394.16⟩ b :=
    ⟨h0, show belowHigh b (some 3751.05) from h1⟩
  simp only [IR_TABLE, calc_irrf_go]
  rw [if_neg hn1, if_neg hn2, if_pos hm]

theorem irrf_go_band4 {b : ℚ} (h0 : (3751.06:ℚ) ≤ b) (h1 : b ≤ 4664.68) :
    (calc_irrf_go b IR_TABLE).1 = round2 (max (b * 0.225 - 675.49) 0) := by
  have hn1 : ¬ band_matches ⟨0.00, some 2428.80, 0.0, 0.0⟩ b := by
    rintro ⟨-, hx⟩
    simp only [belowHigh] at hx
    linarith
  have hn2 : ¬ band_matches ⟨2428.81, some 2826.65, 0.075, 182.16⟩ b := by
    rintro ⟨-, hx⟩
    simp only [belowHigh] at hx
    linarith
  have hn3 : ¬ band_matches ⟨2826.66, some 3751.05, 0.15, 394.16⟩ b := by
    rintro ⟨-, hx⟩
    simp only [belowHigh] at hx
    linarith
  have hm : band_matches ⟨3751.06, some 4664.68, 0.225, 675.49⟩ b :=
    ⟨h0, show belowHigh b (some 4664.68) from h1⟩
  simp only [IR_TABLE, calc_irrf_go]
  rw [if_neg hn1, if_neg hn2, if_neg hn3, if_pos hm]

theorem irrf_go_band5 {b : ℚ} (h0 : (4664.69:ℚ) ≤ b) :
    (calc_irrf_go b IR_TABLE).1 = round2 (max (b * 0.275 - 908.73) 0) := by
  have hn1 : ¬ band_matches ⟨0.00, some 2428.80, 0.0, 0.0⟩ b := by
    rintro ⟨-, hx⟩
    simp only [belowHigh] at hx
    linarith
  have hn2 : ¬ band_matches ⟨2428.81, some 2826.65, 0.075, 182.16⟩ b := by
    rintro ⟨-, hx⟩
    simp only [belowHigh] at hx
    linarith
  have hn3 : ¬ band_matches ⟨2826.66, some 3751.05, 0.15, 394.16⟩ b := by
    rintro ⟨-, hx⟩
    simp only [belowHigh] at hx
    linarith
  have hn4 : ¬ band_matches ⟨3751.06, some 4664.68, 0.225, 675.49⟩ b := by
    rintro ⟨-, hx⟩
    simp only [belowHigh] at hx
    linarith
  have hm : band_matches ⟨4664.69, none, 0.275, 908.73⟩ b :=
    ⟨h0, trivial⟩
  simp only [IR_TABLE, calc_irrf_go]
  rw [if_neg hn1, if_neg hn2, if_neg hn3, if_neg hn4, if_pos hm]

theorem tax_mono_band2 {a b : ℚ} (ha : (2428.81:ℚ) ≤ a) (hab : a ≤ b)
    (hb : b ≤ 2826.65) :
    (calc_irrf_go a IR_TABLE).1 ≤ (calc_irrf_go b IR_TABLE).1 := by
  rw [irrf_go_band2 ha (hab.trans hb), irrf_go_band2 (ha.trans hab) hb]
  exact round2_mono (max_le_max (by nlinarith) le_rfl)

theorem tax_mono_band3 {a b : ℚ} (ha : (2826.66:ℚ) ≤ a) (hab : a ≤ b)
    (hb : b ≤ 3751.05) :
    (calc_irrf_go a IR_TABLE).1 ≤ (calc_irrf_go b IR_TABLE).1 := by
  rw [irrf_go_band3 ha (hab.trans hb), irrf_go_band3 (ha.trans hab) hb]
  exact round2_mono (max_le_max (by nlinarith) le_rfl)

theorem tax_mono_band4 {a b : ℚ} (ha : (3751.06:ℚ) ≤ a) (hab : a ≤ b)
    (hb : b ≤ 4664.68) :
    (calc_irrf_go a IR_TABLE).1 ≤ (calc_irrf_go b IR_TABLE).1 := by
  rw [irrf_go_band4 ha (hab.trans hb), irrf_go_band4 (ha.trans hab) hb]
  exact round2_mono (max_le_max (by nlinarith) le_rfl)

theorem tax_mono_band5 {a b : ℚ} (ha : (4664.69:ℚ) ≤ a) (hab : a ≤ b) :
    (calc_irrf_go a IR_TABLE).1 ≤ (calc_irrf_go b IR_TABLE).1 := by
  rw [irrf_go_band5 ha, irrf_go_band5 (ha.trans hab)]
  exact round2_mono (max_le_max (by nlinarith) le_rfl)

theorem tax_at_U2 : (calc_irrf_go 2826.65 IR_TABLE).1 = 29.84 := by
  norm_num [calc_irrf_go, IR_TABLE, band_matches, belowHigh, round2, rhe,
    Int.floor_eq_iff, Int.fract]

theorem tax_at_L3 : (calc_irrf_go 2826.66 IR_TABLE).1 = 29.84 := by
  norm_num [calc_irrf_go, IR_TABLE, band_matches, belowHigh, round2, rhe,
    Int.floor_eq_iff, Int.fract]

theorem tax_at_U3 : (calc_irrf_go 3751.05 IR_TABLE).1 = 168.50 := by
  norm_num [calc_irrf_go, IR_TABLE, band_matches, belowHigh, round2, rhe,
    Int.floor_eq_iff, Int.fract]

theorem tax_at_L4 : (calc_irrf_go 3751.06 IR_TABLE).1 = 168.50 := by
  norm_num [calc_irrf_go, IR_TABLE, band_matches, belowHigh, round2, rhe,
    Int.floor_eq_iff, Int.fract]

theorem tax_at_U4 : (calc_irrf_go 4664.68 IR_TABLE).1 = 374.06 := by
  norm_num [calc_irrf_go, IR_TABLE, band_matches, belowHigh, round2, rhe,
    Int.floor_eq_iff, Int.fract]

theorem tax_at_L5 : (calc_irrf_go 4664.69 IR_TABLE).1 = 374.06 := by
  norm_num [calc_irrf_go, IR_TABLE, band_matches, belowHigh, round2, rhe,
    Int.floor_eq_iff, Int.fract]

theorem nat_div100_le {m a : ℕ} {q : ℚ} (hq : q * 100 = (a:ℚ)) (hm : m ≤ a) :
    (m:ℚ)/100 ≤ q := by
  rw [div_le_iff₀ (by norm_num : (0:ℚ) < 100), hq]
  exact_mod_cast hm

theorem nat_le_div100 {m a : ℕ} {q : ℚ} (hq : q * 100 = (a:ℚ)) (hm : a ≤ m) :
    q ≤ (m:ℚ)/100 := by
  rw [le_div_iff₀ (by norm_num : (0:ℚ) < 100), hq]
  exact_mod_cast hm

/-- Over whole-cent bases the per-band IRRF amount is monotone: the linear
pieces increase within each band and the rounded amounts agree across each
band boundary. -/
theorem tax_mono_cents {m n : ℕ} (h : m ≤ n) :
    (calc_irrf_go ((m:ℚ)/100) IR_TABLE).1 ≤
      (calc_irrf_go ((n:ℚ)/100) IR_TABLE).1 := by
  have hm0 : (0:ℚ) ≤ (m:ℚ)/100 := by positivity
  have hmn : (m:ℚ)/100 ≤ (n:ℚ)/100 :=
    nat_div100_le (by ring) h
  rcases le_or_lt m 242880 with hm1 | hm1
  · -- m in band 1: its amount is zero
    rw [irrf_go_band1 hm0 (nat_div100_le (by norm_num) hm1)]
    exact irrf_go_fst_nonneg _ _
  rcases le_or_lt m 282665 with hm2 | hm2
  · -- m in band 2
    have ham : (2428.81:ℚ) ≤ (m:ℚ)/100 := nat_le_div100 (by norm_num) hm1
    have hbm : (m:ℚ)/100 ≤ 2826.65 := nat_div100_le (by norm_num) hm2
    rcases le_or_lt n 282665 with hn2 | hn2
    · exact tax_mono_band2 ham hmn (nat_div100_le (by norm_num) hn2)
    have h1 : (calc_irrf_go ((m:ℚ)/100) IR_TABLE).1 ≤ 29.84 := by
      rw [← tax_at_U2]
      exact tax_mono_band2 ham hbm le_rfl
    rcases le_or_lt n 375105 with hn3 | hn3
    · have han : (2826.66:ℚ) ≤ (n:ℚ)/100 := nat_le_div100 (by norm_num) hn2
      have h2 : (29.84:ℚ) ≤ (calc_irrf_go ((n:ℚ)/100) IR_TABLE).1 := by
        rw [← tax_at_L3]
        exact tax_mono_band3 le_rfl han (nat_div100_le (by norm_num) hn3)
      linarith
    rcases le_or_lt n 466468 with hn4 | hn4
    · have han : (3751.06:ℚ) ≤ (n:ℚ)/100 := nat_le_div100 (by norm_num) hn3
      have h2 : (168.50:ℚ) ≤ (calc_irrf_go ((n:ℚ)/100) IR_TABLE).1 := by
        rw [← tax_at_L4]
        exact tax_mono_band4 le_rfl han (nat_div100_le (by norm_num) hn4)
      norm_num at h1 h2 ⊢
      linarith
    · have han : (4664.69:ℚ) ≤ (n:ℚ)/100 := nat_le_div100 (by norm_num) hn4
      have h2 : (374.06:ℚ) ≤ (calc_irrf_go ((n:ℚ)/100) IR_TABLE).1 := by
        rw [← tax_at_L5]
        exact tax_mono_band5 le_rfl han
      norm_num at h1 h2 ⊢
      linarith
  rcases le_or_lt m 375105 with hm3 | hm3
  · -- m in band 3
    have ham : (2826.66:ℚ) ≤ (m:ℚ)/100 := nat_le_div100 (by norm_num) hm2
    have hbm : (m:ℚ)/100 ≤ 3751.05 := nat_div100_le (by norm_num) hm3
    rcases le_or_lt n 375105 with hn3 | hn3
    · exact tax_mono_band3 ham hmn (nat_div100_le (by norm_num) hn3)
    have h1 : (calc_irrf_go ((m:ℚ)/100) IR_TABLE).1 ≤ 168.50 := by
      rw [← tax_at_U3]
      exact tax_mono_band3 ham hbm le_rfl
    rcases le_or_lt n 466468 with hn4 | hn4
    · have han : (3751.06:ℚ) ≤ (n:ℚ)/100 := nat_le_div100 (by norm_num) hn3
      have h2 : (168.50:ℚ) ≤ (calc_irrf_go ((n:ℚ)/100) IR_TABLE).1 := by
        rw [← tax_at_L4]
        exact tax_mono_band4 le_rfl han (nat_div100_le (by norm_num) hn4)
      linarith
    · have han : (4664.69:ℚ) ≤ (n:ℚ)/100 := nat_le_div100 (by norm_num) hn4
      have h2 : (374.06:ℚ) ≤ (calc_irrf_go ((n:ℚ)/100) IR_TABLE).1 := by
        rw [← tax_at_L5]
        exact tax_mono_band5 le_rfl han
      norm_num at h1 h2 ⊢
      linarith
  rcases le_or_lt m 466468 with hm4 | hm4
  · -- m in band 4
    have ham : (3751.06:ℚ) ≤ (m:ℚ)/100 := nat_le_div100 (by norm_num) hm3
    have hbm : (m:ℚ)/100 ≤ 4664.68 := nat_div100_le (by norm_num) hm4
    rcases le_or_lt n 466468 with hn4 | hn4
    · exact tax_mono_band4 ham hmn (nat_div100_le (by norm_num) hn4)
    have h1 : (calc_irrf_go ((m:ℚ)/100) IR_TABLE).1 ≤ 374.06 := by
      rw [← tax_at_U4]
      exact tax_mono_band4 ham hbm le_rfl
    have han : (4664.69:ℚ) ≤ (n:ℚ)/100 := nat_le_div100 (by norm_num) hn4
    have h2 : (374.06:ℚ) ≤ (calc_irrf_go ((n:ℚ)/100) IR_TABLE).1 := by
      rw [← tax_at_L5]
      exact tax_mono_band5 le_rfl han
    linarith
  · -- m in band 5
    have ham : (4664.69:ℚ) ≤ (m:ℚ)/100 := nat_le_div100 (by norm_num) hm4
    exact tax_mono_band5 ham hmn

theorem cent_nonneg_to_nat {x : ℚ} (hc : IsCent x) (h0 : 0 ≤ x) :
    ∃ m : ℕ, x = (m:ℚ)/100 := by
  obtain ⟨k, rfl⟩ := hc
  have hk : 0 ≤ k := by
    by_contra hneg
    push_neg at hneg
    have : ((k:ℚ))/100 < 0 :=
      div_neg_of_neg_of_pos (by exact_mod_cast hneg) (by norm_num)
    linarith
  obtain ⟨m, rfl⟩ := Int.eq_ofNat_of_zero_le hk
  exact ⟨m, by push_cast; ring⟩

theorem div100_le_nat {m n : ℕ} (h : (m:ℚ)/100 ≤ (n:ℚ)/100) : m ≤ n := by
  have hq : (m:ℚ) ≤ (n:ℚ) := by linarith
  exact_mod_cast hq

/-- With the INSS recomputed from the salary, the IRRF total is monotone in
the salary over whole-cent salaries. -/
theorem calc_irrf_mono_cents {k1 k2 : ℕ} (hk : k1 ≤ k2) (other : ℚ)
    (dep : ℕ) :
    (calc_irrf ((k1:ℚ)/100) (calc_inss ((k1:ℚ)/100)).1 other dep).1 ≤
      (calc_irrf ((k2:ℚ)/100) (calc_inss ((k2:ℚ)/100)).1 other dep).1 := by
  have hg := inss_g_mono_cents hk
  have hbase :
      round2 (max ((k1:ℚ)/100 - (calc_inss ((k1:ℚ)/100)).1 - other -
        (dep:ℚ) * DEPENDENT_DEDUCTION) 0) ≤
      round2 (max ((k2:ℚ)/100 - (calc_inss ((k2:ℚ)/100)).1 - other -
        (dep:ℚ) * DEPENDENT_DEDUCTION) 0) :=
    round2_mono (max_le_max (by linarith) le_rfl)
  obtain ⟨m1, e1⟩ := cent_nonneg_to_nat (round2_cent _)
    (round2_nonneg (le_max_right _ 0) :
      0 ≤ round2 (max ((k1:ℚ)/100 - (calc_inss ((k1:ℚ)/100)).1 - other -
        (dep:ℚ) * DEPENDENT_DEDUCTION) 0))
  obtain ⟨m2, e2⟩ := cent_nonneg_to_nat (round2_cent _)
    (round2_nonneg (le_max_right _ 0) :
      0 ≤ round2 (max ((k2:ℚ)/100 - (calc_inss ((k2:ℚ)/100)).1 - other -
        (dep:ℚ) * DEPENDENT_DEDUCTION) 0))
  have hm : m1 ≤ m2 := div100_le_nat (by rw [← e1, ← e2]; exact hbase)
  show (calc_irrf_go (round2 (max ((k1:ℚ)/100 - (calc_inss ((k1:ℚ)/100)).1 -
      other - (dep:ℚ) * DEPENDENT_DEDUCTION) 0)) IR_TABLE).1 ≤
    (calc_irrf_go (round2 (max ((k2:ℚ)/100 - (calc_inss ((k2:ℚ)/100)).1 -
      other - (dep:ℚ) * DEPENDENT_DEDUCTION) 0)) IR_TABLE).1
  rw [e1, e2]
  exact tax_mono_cents hm

/-- C5 (amended): the INSS total is a non-decreasing function of the salary
(for all salaries), and the IRRF total — with the INSS input recomputed
from the salary and the other inputs held fixed — is non-decreasing over
whole-cent salaries; for sub-cent salary increases the IRRF total can drop
by one cent. -/
theorem withholdings_monotone :
    (∀ s t : ℚ, s ≤ t → (calc_inss s).1 ≤ (calc_inss t).1) ∧
    (∀ k1 k2 : ℕ, k1 ≤ k2 → ∀ other : ℚ, ∀ dep : ℕ,
      (calc_irrf ((k1:ℚ)/100) (calc_inss ((k1:ℚ)/100)).1 other dep).1 ≤
        (calc_irrf ((k2:ℚ)/100) (calc_inss ((k2:ℚ)/100)).1 other dep).1) :=
  ⟨fun _ _ h => calc_inss_mono h, fun _ _ hk o d => calc_irrf_mono_cents hk o d⟩

/-- C5 (witness): salaries 2000.00 ≤ 3000.00 (200000 and 300000 cents). -/
theorem withholdings_monotone_witness :
    ((calc_inss 2000).1 ≤ (calc_inss 3000).1) ∧
      (calc_irrf (((200000:ℕ):ℚ)/100)
          (calc_inss (((200000:ℕ):ℚ)/100)).1 0 0).1 ≤
        (calc_irrf (((300000:ℕ):ℚ)/100)
          (calc_inss (((300000:ℕ):ℚ)/100)).1 0 0).1 :=
  ⟨withholdings_monotone.1 2000 3000 (by norm_num),
   withholdings_monotone.2 200000 300000 (by norm_num) 0 0⟩

/-- C5 (counterexample): with the INSS recomputed from the salary, the IRRF
total is NOT monotone over all salaries: raising the salary from 2651.388
to 2651.389 makes the INSS total jump from 215.85 to 215.86, the rounded
tax base drop from 2435.54 to 2435.53, and the IRRF total drop from 0.51
to 0.50. -/
theorem irrf_not_monotone :
    (2651.388:ℚ) ≤ 2651.389 ∧
      (calc_irrf 2651.389 (calc_inss 2651.389).1 0 0).1 <
        (calc_irrf 2651.388 (calc_inss 2651.388).1 0 0).1 := by
  constructor
  · norm_num
  · norm_num [calc_inss, calc_inss_go, INSS_BRACKETS, calc_irrf, calc_irrf_go,
      IR_TABLE, band_matches, belowHigh, DEPENDENT_DEDUCTION, round2, rhe,
      Int.floor_eq_iff, Int.fract]

end Folha
